import Mathlib

/-!
Verification of the data-preparation and tuning-configuration logic of the
notebook `lab_3_automatic_model_tuning/automatic_model_tuning.ipynb`.

The notebook is a sequence of pandas transformations (one-hot encoding,
column reordering, a seeded 70/30 split, CSV export) followed by calls to
the SageMaker tuning API (a first tuner, then a warm-started tuner).
We give a shallow embedding of the dataframe operations the notebook uses,
of the SDK objects it constructs, and a syntactic embedding of the
notebook's cells (for the claims about absence of exception handling and
of concurrency constructs), and prove the claimed properties.
-/

namespace AutoTuning

/-- A cell value of the marketing dataframe: pandas columns here are either
numeric (int/float) or strings (object dtype).  We model both with one sum
type; numbers are exact rationals. -/
inductive Value where
  | num (q : ℚ)
  | str (s : String)
deriving DecidableEq, Repr

/-- Whether a value is numeric. -/
def Value.isNum : Value → Bool
  | .num _ => true
  | .str _ => false

/-- A dataframe, column-major: an index (row labels, as produced by
`pd.read_csv`, a range index of naturals) and a list of named columns.
Well-formedness (every column as long as the index) is carried as a
hypothesis where needed. -/
structure DataFrame where
  index : List Nat
  cols : List (String × List Value)
deriving DecidableEq, Repr

/-- Number of rows. -/
def DataFrame.nRows (df : DataFrame) : Nat := df.index.length

/-- Column names, in order. -/
def DataFrame.colNames (df : DataFrame) : List String := df.cols.map Prod.fst

/-- Well-formed: every column has exactly one value per index entry. -/
def DataFrame.WF (df : DataFrame) : Prop :=
  ∀ c ∈ df.cols, c.2.length = df.index.length

instance (df : DataFrame) : Decidable df.WF := by
  unfold DataFrame.WF; infer_instance

/-- Lookup `df[name]`: the values of the first column called `name`, if present
(pandas raises a `KeyError` otherwise, hence `Option`). -/
def DataFrame.getCol (df : DataFrame) (name : String) : Option (List Value) :=
  (df.cols.find? (fun c => c.1 = name)).map Prod.snd

/-- Lexicographic comparison of character lists (the order underlying
string comparison). -/
def charListLe : List Char → List Char → Bool
  | [], _ => true
  | _ :: _, [] => false
  | a :: as, b :: bs => if a = b then charListLe as bs else decide (a < b)

/-- Lexicographic string order, as a Boolean. -/
def strLe (a b : String) : Bool := charListLe a.data b.data

/-- Insertion of a string into a sorted list (ascending). -/
def insertSorted (x : String) : List String → List String
  | [] => [x]
  | y :: ys => if strLe x y then x :: y :: ys else y :: insertSorted x ys

/-- Insertion sort on strings, ascending; `pd.get_dummies` emits the
indicator columns of a column in sorted order of the distinct values. -/
def sortStrings (xs : List String) : List String :=
  xs.foldr insertSorted []

/-- The distinct string values of a column, sorted ascending. -/
def distinctSorted (vs : List Value) : List String :=
  sortStrings (vs.filterMap (fun v => match v with
    | .str s => some s
    | .num _ => none)).dedup

/-- The 0/1 indicator column for value `s` of a column `vs`
(the row gets 1 exactly when its entry is the string `s`). -/
def indicatorCol (s : String) (vs : List Value) : List Value :=
  vs.map (fun v => if v = .str s then .num 1 else .num 0)

/-- The action of `pd.get_dummies` on one column: a numeric column is passed
through unchanged; an object (string) column is replaced by one indicator
column per distinct value, named `name_value`, in sorted value order. -/
def dummiesOfCol (c : String × List Value) : List (String × List Value) :=
  if (c.2.all Value.isNum) then [c]
  else (distinctSorted c.2).map (fun s => (c.1 ++ "_" ++ s, indicatorCol s c.2))

/-- Encoding `pd.get_dummies(data)`: every non-numeric column is expanded into its
set of indicator columns, numeric columns and the index are unchanged. -/
def getDummies (df : DataFrame) : DataFrame :=
  { index := df.index, cols := df.cols.flatMap dummiesOfCol }

/-! ### The 70/30 split

`train_data = model_data.sample(frac=0.7, random_state=1729)` computes the
number of sampled rows as `int(round(frac * axis_length))` in IEEE double
arithmetic and then takes the first `n` entries of a seeded permutation of
the row positions.  We model the double computation exactly (the double
nearest 0.7 is 6305039478318694/2^53, the product is rounded to 53
significant bits, and Python's `round` rounds half to even). -/

/-- The 53-bit significand of the IEEE double nearest to 0.7:
`0.7 = 6305039478318694 / 2^53` as a double. -/
def mant07 : Nat := 6305039478318694

/-- Round `m / 2^s` to the nearest integer, ties to even: the IEEE
round-to-nearest rule (which is also Python's `round`) applied to a
binary shift. -/
def roundHalfEvenShift (m s : Nat) : Nat :=
  if 2 * (m % 2 ^ s) < 2 ^ s then m / 2 ^ s
  else if 2 ^ s < 2 * (m % 2 ^ s) then m / 2 ^ s + 1
  else if (m / 2 ^ s) % 2 = 0 then m / 2 ^ s else m / 2 ^ s + 1

/-- Base-2 logarithm via explicit fuel (so that it is structurally
recursive and evaluates inside the kernel). -/
def log2F : Nat → Nat → Nat
  | 0, _ => 0
  | f + 1, n => if n ≤ 1 then 0 else log2F f (n / 2) + 1

/-- Here `natLog2 n` is the exponent of the highest set bit of `n`
(0 for `n ≤ 1`). -/
def natLog2 (n : Nat) : Nat := log2F n n

/-- The IEEE double product `0.7 * n`, scaled by `2^53`: the exact
product `mant07 * n` is rounded to 53 significant bits when it does
not already fit.  The double `0.7 * n` is exactly `flNum n / 2^53`. -/
def flNum (n : Nat) : Nat :=
  let m := mant07 * n
  if m < 2 ^ 53 then m
  else roundHalfEvenShift m (natLog2 m - 52) * 2 ^ (natLog2 m - 52)

/-- The IEEE double product `0.7 * n` as an exact rational. -/
def flProd07 (n : Nat) : ℚ := (flNum n : ℚ) / 2 ^ 53

/-- The number of rows `pandas.sample(frac=0.7)` draws from `n` rows:
`int(round(0.7 * n))`, with the float product and Python's
round-half-to-even made exact. -/
def sampleSize (n : Nat) : Nat := roundHalfEvenShift (flNum n) 53

/-- Rows of a dataframe at a list of positions, in that order, keeping the
original index labels (`DataFrame.take(locs)`). -/
def selectRows (df : DataFrame) (pos : List Nat) : DataFrame :=
  { index := pos.map (fun i => df.index.getD i 0),
    cols := df.cols.map (fun c => (c.1, pos.map (fun i => c.2.getD i (.num 0)))) }

/-- Sampling `df.sample(frac=0.7, random_state=rs)`.  The positions come from a
pseudorandom permutation of `range n` (`numpy`'s
`permutation(n)[:size]`): from a fresh generator seeded with `s` when
`rs = some s`, and from the ambient global generator when `rs = none`.
The Mersenne-Twister stream itself is opaque to this code, so the two
permutation sources are parameters. -/
def pandasSample (prng : Nat → Nat → List Nat) (globalPerm : Nat → List Nat)
    (df : DataFrame) (randomState : Option Nat) : DataFrame :=
  let perm := match randomState with
    | some s => prng s df.nRows
    | none => globalPerm df.nRows
  selectRows df (perm.take (sampleSize df.nRows))

/-- Dropping rows, `df.drop(labels)` (axis 0): remove every row whose index label is in
`labels`, keeping the rest in order. -/
def pandasDropRows (df : DataFrame) (labels : List Nat) : DataFrame :=
  selectRows df ((List.range df.nRows).filter
    (fun i => !(labels.contains (df.index.getD i 0))))

/-- Dropping columns, `df.drop(names, axis=1)`, with an explicit `inplace` flag (the notebook
uses the default `inplace=False`).  Returns `none` when a name is absent
(pandas raises `KeyError`); otherwise returns the resulting frame together
with the value the variable `df` holds after the call. -/
def pandasDropCols (df : DataFrame) (names : List String) (inplace : Bool) :
    Option (DataFrame × DataFrame) :=
  if names.all (fun n => df.colNames.contains n) then
    let res : DataFrame :=
      { index := df.index, cols := df.cols.filter (fun c => !(names.contains c.1)) }
    some (res, if inplace then res else df)
  else none

/-- The reordering cell:
`pd.concat([model_data['y_yes'], model_data.drop(['y_no', 'y_yes'], axis=1)], axis=1)`
moves the `y_yes` column to the front and drops `y_no`. -/
def reorderLabelFirst (df : DataFrame) : Option DataFrame :=
  (df.getCol "y_yes").bind (fun ys =>
    (pandasDropCols df ["y_no", "y_yes"] false).map (fun rest =>
      { index := df.index, cols := ("y_yes", ys) :: rest.1.cols }))

/-- One cell of a written CSV file: a header cell, an index label, or a
data value. -/
inductive CsvEntry where
  | headerCell (s : String)
  | indexCell (n : Nat)
  | valueCell (v : Value)
deriving DecidableEq, Repr

/-- Row `i` of a dataframe, across its columns in order. -/
def DataFrame.rowAt (df : DataFrame) (i : Nat) : List Value :=
  df.cols.map (fun c => c.2.getD i (.num 0))

/-- Export `df.to_csv(index=..., header=...)`: the written lines.  A header line
is emitted only when `header` is true; each body line carries the row's
index label only when `index` is true; the notebook passes both as
`False`. -/
def toCsv (df : DataFrame) (index : Bool) (header : Bool) : List (List CsvEntry) :=
  (if header then [df.colNames.map CsvEntry.headerCell] else []) ++
    (List.range df.nRows).map (fun i =>
      (if index then [CsvEntry.indexCell (df.index.getD i 0)] else []) ++
        (df.rowAt i).map CsvEntry.valueCell)

/-! ### The notebook's data-preparation lines -/

/-- Cell 8: `model_data = pd.get_dummies(data)`. -/
def model_data_raw (data : DataFrame) : DataFrame := getDummies data

/-- Cell 10, first line: `model_data` after the concat that moves `y_yes`
to the front and drops `y_no` (`none` when the dummy columns are absent). -/
def model_data (data : DataFrame) : Option DataFrame :=
  reorderLabelFirst (model_data_raw data)

/-- Cell 10: `train_data = model_data.sample(frac=0.7, random_state=1729)`,
as a function of the encoded frame and of the two permutation sources. -/
def train_data (prng : Nat → Nat → List Nat) (globalPerm : Nat → List Nat)
    (md : DataFrame) : DataFrame :=
  pandasSample prng globalPerm md (some 1729)

/-- Cell 10: `validation_data = model_data.drop(train_data.index)`. -/
def validation_data (prng : Nat → Nat → List Nat) (globalPerm : Nat → List Nat)
    (md : DataFrame) : DataFrame :=
  pandasDropRows md (train_data prng globalPerm md).index

/-- Cell 10: `train_data.to_csv('train.csv', index=False, header=False)`. -/
def train_csv (prng : Nat → Nat → List Nat) (globalPerm : Nat → List Nat)
    (md : DataFrame) : List (List CsvEntry) :=
  toCsv (train_data prng globalPerm md) false false

/-- Cell 10: `validation_data.to_csv('validation.csv', index=False, header=False)`. -/
def validation_csv (prng : Nat → Nat → List Nat) (globalPerm : Nat → List Nat)
    (md : DataFrame) : List (List CsvEntry) :=
  toCsv (validation_data prng globalPerm md) false false

/-- Cell 28: `clean_data = data.drop(['duration', 'emp.var.rate',
'cons.price.idx', 'cons.conf.idx', 'euribor3m', 'nr.employed'], axis=1)`. -/
def droppedEconCols : List String :=
  ["duration", "emp.var.rate", "cons.price.idx", "cons.conf.idx", "euribor3m", "nr.employed"]

/-- Cell 28's call, default `inplace=False`: the resulting `clean_data`
paired with the value `data` holds afterwards. -/
def clean_data (data : DataFrame) : Option (DataFrame × DataFrame) :=
  pandasDropCols data droppedEconCols false

/-- Cell 30: `clean_model_data` after one-hot encoding and the reorder. -/
def clean_model_data (data : DataFrame) : Option DataFrame :=
  (clean_data data).bind (fun p => reorderLabelFirst (getDummies p.1))

/-! ### The SageMaker SDK objects the notebook constructs

The SDK itself is external; we model the constructed objects as records of
the parameter values the notebook supplies.  Runtime strings (the
container URI, the IAM role, the S3 locations, the first job's name) are
parameters. -/

/-- The SDK object `sagemaker.session.s3_input(...)`: the channel description. -/
structure S3Input where
  s3Data : String
  distribution : String
  contentType : String
  s3DataType : String
deriving DecidableEq, Repr

/-- Cell 13: `s3_input_train = sagemaker.session.s3_input(s3train,
distribution='FullyReplicated', content_type='text/csv',
s3_data_type='S3Prefix')`. -/
def s3_input_train (s3train : String) : S3Input :=
  { s3Data := s3train, distribution := "FullyReplicated",
    contentType := "text/csv", s3DataType := "S3Prefix" }

/-- Cell 13: `s3_input_validation = sagemaker.session.s3_input(s3validation, ...)`. -/
def s3_input_validation (s3validation : String) : S3Input :=
  { s3Data := s3validation, distribution := "FullyReplicated",
    contentType := "text/csv", s3DataType := "S3Prefix" }

/-- Cell 15: the `sagemaker.estimator.Estimator` for XGBoost, with the
static hyperparameters set by `xgb.set_hyperparameters(...)`. -/
structure Estimator where
  container : String
  role : String
  train_instance_count : Nat
  train_instance_type : String
  output_path : String
  hyperparameters : List (String × Value)
deriving DecidableEq, Repr

/-- Cell 15: `xgb`, the estimator after `set_hyperparameters`. -/
def xgb (container role outputPath : String) : Estimator :=
  { container := container, role := role,
    train_instance_count := 1, train_instance_type := "ml.m4.xlarge",
    output_path := outputPath,
    hyperparameters :=
      [("max_depth", .num 5), ("eta", .num (2 / 10)), ("gamma", .num 4),
       ("min_child_weight", .num 6), ("subsample", .num (8 / 10)),
       ("silent", .num 0), ("objective", .str "binary:logistic"),
       ("num_round", .num 100)] }

/-- A hyperparameter search range: `ContinuousParameter(lo, hi)` or
`IntegerParameter(lo, hi)`. -/
inductive HPRange where
  | continuous (lo hi : ℚ)
  | integer (lo hi : ℤ)
deriving DecidableEq, Repr

/-- The SDK enum `sagemaker.tuner.WarmStartTypes`. -/
inductive WarmStartTypes where
  | IDENTICAL_DATA_AND_ALGORITHM
  | TRANSFER_LEARNING
deriving DecidableEq, Repr

/-- The SDK object `sagemaker.tuner.WarmStartConfig`: a warm-start type and the set of
parent tuning-job names (the notebook passes a one-element Python set;
we keep it as the list of its elements). -/
structure WarmStartConfig where
  warm_start_type : WarmStartTypes
  parents : List String
deriving DecidableEq, Repr

/-- The SDK object `sagemaker.tuner.HyperparameterTuner`: the constructor arguments the
notebook supplies. -/
structure HyperparameterTuner where
  estimator : Estimator
  objective_metric_name : String
  hyperparameter_ranges : List (String × HPRange)
  objective_type : String
  max_jobs : Nat
  max_parallel_jobs : Nat
  base_tuning_job_name : Option String
  warm_start_config : Option WarmStartConfig
deriving DecidableEq, Repr

/-- Modelled from the spec: cell 17 leaves `hyperparameter_ranges = #TODO`
for the learner to fill in, and its instructions prescribe the dictionary
exactly — `eta` a `ContinuousParameter` from 0 to 1, `alpha` a
`ContinuousParameter` from 0 to 2, `min_child_weight` a
`ContinuousParameter` from 1 to 10, `max_depth` an `IntegerParameter`
from 1 to 10. -/
def hyperparameter_ranges : List (String × HPRange) :=
  [("eta", .continuous 0 1), ("alpha", .continuous 0 2),
   ("min_child_weight", .continuous 1 10), ("max_depth", .integer 1 10)]

/-- Cell 17: `objective_metric_name = 'validation:auc'` (this line is
present in the source, not part of the TODO). -/
def objective_metric_name : String := "validation:auc"

/-- Modelled from the spec: cell 17 leaves `tuner = #TODO`, and its
instructions prescribe the construction — the estimator `xgb`, the
`objective_metric_name`, the ranges, `objective_type = 'Maximize'`,
`5 max_jobs` and `3 max_parallel_jobs`. -/
def tuner (container role outputPath : String) : HyperparameterTuner :=
  { estimator := xgb container role outputPath,
    objective_metric_name := objective_metric_name,
    hyperparameter_ranges := hyperparameter_ranges,
    objective_type := "Maximize",
    max_jobs := 5, max_parallel_jobs := 3,
    base_tuning_job_name := none, warm_start_config := none }

/-- Cell 34: `warm_start_config =
WarmStartConfig(WarmStartTypes.TRANSFER_LEARNING, parents={parent_tuning_job_name})`,
where `parent_tuning_job_name = tuning_job_name`, the name captured from
the first tuner. -/
def warm_start_config (tuning_job_name : String) : WarmStartConfig :=
  { warm_start_type := .TRANSFER_LEARNING, parents := [tuning_job_name] }

/-- Cell 35: `tuner_warm_start = HyperparameterTuner(xgb,
objective_metric_name, hyperparameter_ranges, objective_type='Maximize',
max_jobs=20, max_parallel_jobs=2, base_tuning_job_name='warmstart',
warm_start_config=warm_start_config)`. -/
def tuner_warm_start (container role outputPath tuning_job_name : String) :
    HyperparameterTuner :=
  { estimator := xgb container role outputPath,
    objective_metric_name := objective_metric_name,
    hyperparameter_ranges := hyperparameter_ranges,
    objective_type := "Maximize",
    max_jobs := 20, max_parallel_jobs := 2,
    base_tuning_job_name := some "warmstart",
    warm_start_config := some (warm_start_config tuning_job_name) }

/-- A call to `tuner.fit`: the channel dictionary and the
`include_cls_metadata` flag. -/
structure FitCall where
  channels : List (String × S3Input)
  include_cls_metadata : Bool
deriving DecidableEq, Repr

/-- Cell 19: `tuner.fit({'train': s3_input_train, 'validation':
s3_input_validation}, include_cls_metadata=False)`. -/
def tuner_fit_call (s3train s3validation : String) : FitCall :=
  { channels := [("train", s3_input_train s3train),
                 ("validation", s3_input_validation s3validation)],
    include_cls_metadata := false }

/-- The SageMaker limit on the number of parent jobs in a warm-start
configuration: "specifying up to 5 parent tuning jobs". -/
def maxWarmStartParents : Nat := 5

/-! ### The status-polling cells

Cells 21 and 38 poll the tuning job and print its status; the reminder
line is printed exactly when the status is not `Completed`. -/

/-- The lines printed by a status-polling cell, as a function of the
`HyperParameterTuningJobStatus` string and the completed-job counter
returned by `describe_hyper_parameter_tuning_job`. -/
def pollCellOutput (status : String) (jobCount : Nat) : List String :=
  ["Current status: " ++ status] ++
    (if status ≠ "Completed" then ["Reminder: the tuning job has not been completed."]
     else []) ++
    [toString jobCount ++ " training jobs have completed"]

/-- The reminder line those cells print. -/
def reminderLine : String := "Reminder: the tuning job has not been completed."

/-! ### A syntactic embedding of the notebook's code cells

The claims about error handling and concurrency are claims about the
absence of constructs anywhere in the notebook, so we transliterate every
code cell into a small Python statement syntax and check it.  The syntax
has constructors for `try`, loops, `with`, function definitions and
lambdas even though the notebook uses none of them: their absence is then
a checked fact, not an artefact of the representation. -/

/-- Python expressions, as used by the notebook.  String-literal contents
are carried verbatim. -/
inductive PyExpr where
  | name (s : String)
  | strLit (s : String)
  | intLit (n : ℤ)
  | numLit (q : ℚ)
  | boolLit (b : Bool)
  | attr (e : PyExpr) (f : String)
  | call (f : PyExpr) (args : List PyExpr) (kwargs : List (String × PyExpr))
  | subscript (e i : PyExpr)
  | binop (op : String) (a b : PyExpr)
  | unaryOp (op : String) (a : PyExpr)
  | dict (entries : List (PyExpr × PyExpr))
  | setLit (es : List PyExpr)
  | listLit (es : List PyExpr)
  | lam (params : List String) (body : PyExpr)

/-- Python statements, as used by the notebook, plus the Jupyter shell
escape (`!cmd`). -/
inductive PyStmt where
  | assign (target : String) (e : PyExpr)
  | exprStmt (e : PyExpr)
  | importMod (m : String) (al : Option String)
  | importFrom (m : String) (names : List String)
  | ifStmt (cond : PyExpr) (thenBody elseBody : List PyStmt)
  | whileStmt (cond : PyExpr) (body : List PyStmt)
  | forStmt (v : String) (iter : PyExpr) (body : List PyStmt)
  | tryStmt (body handlers orelse finallyBody : List PyStmt)
  | withStmt (ctx : PyExpr) (body : List PyStmt)
  | funcDef (nm : String) (params : List String) (body : List PyStmt)
  | classDef (nm : String) (body : List PyStmt)
  | shellCmd (s : String)
  | todoAssign (target : String)

mutual
/-- Does a statement contain a `try`/`except` anywhere (recursively
inside every compound statement)? -/
def stmtHasTry : PyStmt → Bool
  | .tryStmt _ _ _ _ => true
  | .ifStmt _ t e => stmtsHaveTry t || stmtsHaveTry e
  | .whileStmt _ b => stmtsHaveTry b
  | .forStmt _ _ b => stmtsHaveTry b
  | .withStmt _ b => stmtsHaveTry b
  | .funcDef _ _ b => stmtsHaveTry b
  | .classDef _ b => stmtsHaveTry b
  | _ => false

def stmtsHaveTry : List PyStmt → Bool
  | [] => false
  | s :: ss => stmtHasTry s || stmtsHaveTry ss
end

/-- The Python modules that provide local concurrency mechanisms. -/
def concurrencyModules : List String :=
  ["threading", "_thread", "multiprocessing", "concurrent", "concurrent.futures",
   "asyncio", "queue"]

/-- Constructor/function names that create a thread, a process, a lock, or
another local concurrency mechanism. -/
def concurrencyCallNames : List String :=
  ["Thread", "Process", "Pool", "Lock", "RLock", "Semaphore", "BoundedSemaphore",
   "Condition", "Barrier", "Event", "ThreadPoolExecutor", "ProcessPoolExecutor",
   "start_new_thread", "create_task", "ensure_future", "run_coroutine_threadsafe",
   "fork", "spawn"]

/-- Whether a shell command is sent to the background (a trailing `&`),
rather than run in the blocking foreground. -/
def shellBackground (s : String) : Bool :=
  s.data.getLast? = some '&'

/-- The last segment of a callee (`f` in `x.y.f(...)` or a bare `f(...)`). -/
def calleeName : PyExpr → String
  | .name s => s
  | .attr _ f => f
  | _ => ""

mutual
/-- No concurrency construct inside an expression: no call to any of the
`concurrencyCallNames`, recursively. -/
def exprConcFree : PyExpr → Bool
  | .name _ => true
  | .strLit _ => true
  | .intLit _ => true
  | .numLit _ => true
  | .boolLit _ => true
  | .attr e _ => exprConcFree e
  | .call f args kwargs =>
      !(concurrencyCallNames.contains (calleeName f)) && exprConcFree f &&
        exprsConcFree args && kwargsConcFree kwargs
  | .subscript e i => exprConcFree e && exprConcFree i
  | .binop _ a b => exprConcFree a && exprConcFree b
  | .unaryOp _ a => exprConcFree a
  | .dict es => pairsConcFree es
  | .setLit es => exprsConcFree es
  | .listLit es => exprsConcFree es
  | .lam _ b => exprConcFree b

def exprsConcFree : List PyExpr → Bool
  | [] => true
  | e :: es => exprConcFree e && exprsConcFree es

def kwargsConcFree : List (String × PyExpr) → Bool
  | [] => true
  | p :: ps => exprConcFree p.2 && kwargsConcFree ps

def pairsConcFree : List (PyExpr × PyExpr) → Bool
  | [] => true
  | p :: ps => exprConcFree p.1 && exprConcFree p.2 && pairsConcFree ps
end

mutual
/-- No concurrency construct inside a statement: no import of a
concurrency module, no concurrency-creating call, and every shell escape
is a foreground (blocking) command. -/
def stmtConcFree : PyStmt → Bool
  | .assign _ e => exprConcFree e
  | .exprStmt e => exprConcFree e
  | .importMod m _ => !(concurrencyModules.contains m)
  | .importFrom m _ => !(concurrencyModules.contains m)
  | .ifStmt c t e => exprConcFree c && stmtsConcFree t && stmtsConcFree e
  | .whileStmt c b => exprConcFree c && stmtsConcFree b
  | .forStmt _ i b => exprConcFree i && stmtsConcFree b
  | .tryStmt b h o f =>
      stmtsConcFree b && stmtsConcFree h && stmtsConcFree o && stmtsConcFree f
  | .withStmt c b => exprConcFree c && stmtsConcFree b
  | .funcDef _ _ b => stmtsConcFree b
  | .classDef _ b => stmtsConcFree b
  | .shellCmd s => !(shellBackground s)
  | .todoAssign _ => true

def stmtsConcFree : List PyStmt → Bool
  | [] => true
  | s :: ss => stmtConcFree s && stmtsConcFree ss
end

/-! ### The notebook's code cells, transliterated -/

/-- Code cell 1: session setup. -/
def cell_1 : List PyStmt :=
  [.importMod "sagemaker" none,
   .importMod "boto3" none,
   .assign "role" (.call (.attr (.name "sagemaker") "get_execution_role") [] []),
   .exprStmt (.call (.name "print")
     [.call (.attr (.strLit "Role name: \x7b\x7d") "format") [.name "role"] []] []),
   .assign "sess" (.call (.attr (.name "sagemaker") "Session") [] []),
   .assign "bucket" (.call (.attr (.name "sess") "default_bucket") [] []),
   .exprStmt (.call (.name "print")
     [.call (.attr (.strLit "Bucket name: \x7b\x7d") "format") [.name "bucket"] []] []),
   .assign "prefix" (.strLit "DEMO-marketing-warmstart")]

/-- Code cell 4: download and unzip the data set. -/
def cell_4 : List PyStmt :=
  [.shellCmd "wget -N https://archive.ics.uci.edu/ml/machine-learning-databases/00222/bank-additional.zip",
   .shellCmd "unzip -o bank-additional.zip"]

/-- Code cell 5: read the CSV. -/
def cell_5 : List PyStmt :=
  [.importMod "pandas" (some "pd"),
   .importMod "numpy" (some "np"),
   .assign "data" (.call (.attr (.name "pd") "read_csv")
     [.strLit "./bank-additional/bank-additional-full.csv"] [("sep", .strLit ";")]),
   .exprStmt (.call (.attr (.name "pd") "set_option")
     [.strLit "display.max_columns", .intLit 500] []),
   .exprStmt (.call (.attr (.name "pd") "set_option")
     [.strLit "display.max_rows", .intLit 50] []),
   .exprStmt (.name "data")]

/-- Code cell 8: one-hot encoding. -/
def cell_8 : List PyStmt :=
  [.assign "model_data" (.call (.attr (.name "pd") "get_dummies") [.name "data"] []),
   .exprStmt (.name "model_data")]

/-- Code cell 10: reorder, split, export to CSV. -/
def cell_10 : List PyStmt :=
  [.assign "model_data" (.call (.attr (.name "pd") "concat")
     [.listLit
       [.subscript (.name "model_data") (.strLit "y_yes"),
        .call (.attr (.name "model_data") "drop")
          [.listLit [.strLit "y_no", .strLit "y_yes"]] [("axis", .intLit 1)]]]
     [("axis", .intLit 1)]),
   .assign "train_data" (.call (.attr (.name "model_data") "sample") []
     [("frac", .numLit (7 / 10)), ("random_state", .intLit 1729)]),
   .assign "validation_data" (.call (.attr (.name "model_data") "drop")
     [.attr (.name "train_data") "index"] []),
   .exprStmt (.call (.attr (.name "train_data") "to_csv") [.strLit "train.csv"]
     [("index", .boolLit false), ("header", .boolLit false)]),
   .exprStmt (.call (.attr (.name "validation_data") "to_csv") [.strLit "validation.csv"]
     [("index", .boolLit false), ("header", .boolLit false)])]

/-- Code cell 12: upload the CSVs to S3. -/
def cell_12 : List PyStmt :=
  [.assign "s3train" (.call (.attr (.strLit "s3://\x7b\x7d/\x7b\x7d/train/") "format")
     [.name "bucket", .name "prefix"] []),
   .assign "s3validation" (.call (.attr (.strLit "s3://\x7b\x7d/\x7b\x7d/validation/") "format")
     [.name "bucket", .name "prefix"] []),
   .shellCmd "aws s3 cp train.csv $s3train",
   .shellCmd "aws s3 cp validation.csv $s3validation"]

/-- Code cell 13: channel definitions. -/
def cell_13 : List PyStmt :=
  [.assign "s3_output_location" (.call (.attr (.strLit "s3://\x7b\x7d/\x7b\x7d/output") "format")
     [.name "bucket", .name "prefix"] []),
   .assign "s3_input_train" (.call (.attr (.attr (.name "sagemaker") "session") "s3_input")
     [.name "s3train"]
     [("distribution", .strLit "FullyReplicated"), ("content_type", .strLit "text/csv"),
      ("s3_data_type", .strLit "S3Prefix")]),
   .assign "s3_input_validation" (.call (.attr (.attr (.name "sagemaker") "session") "s3_input")
     [.name "s3validation"]
     [("distribution", .strLit "FullyReplicated"), ("content_type", .strLit "text/csv"),
      ("s3_data_type", .strLit "S3Prefix")])]

/-- Code cell 15: the estimator and its static hyperparameters. -/
def cell_15 : List PyStmt :=
  [.assign "my_region" (.attr
     (.call (.attr (.attr (.name "boto3") "session") "Session") [] []) "region_name"),
   .assign "container" (.call
     (.attr (.attr (.attr (.name "sagemaker") "amazon") "amazon_estimator") "get_image_uri")
     [.name "my_region", .strLit "xgboost"] []),
   .assign "xgb" (.call (.attr (.attr (.name "sagemaker") "estimator") "Estimator")
     [.name "container", .name "role"]
     [("train_instance_count", .intLit 1), ("train_instance_type", .strLit "ml.m4.xlarge"),
      ("output_path", .name "s3_output_location"), ("sagemaker_session", .name "sess")]),
   .exprStmt (.call (.attr (.name "xgb") "set_hyperparameters") []
     [("max_depth", .intLit 5), ("eta", .numLit (2 / 10)), ("gamma", .intLit 4),
      ("min_child_weight", .intLit 6), ("subsample", .numLit (8 / 10)),
      ("silent", .intLit 0), ("objective", .strLit "binary:logistic"),
      ("num_round", .intLit 100)])]

/-- Code cell 17: the search-space and tuner cell; the two `#TODO`
placeholders are left unfilled in the source. -/
def cell_17 : List PyStmt :=
  [.importFrom "sagemaker.tuner" ["IntegerParameter", "ContinuousParameter", "HyperparameterTuner"],
   .todoAssign "hyperparameter_ranges",
   .assign "objective_metric_name" (.strLit "validation:auc"),
   .todoAssign "tuner"]

/-- Code cell 19: launch the first tuning job. -/
def cell_19 : List PyStmt :=
  [.exprStmt (.call (.attr (.name "tuner") "fit")
     [.dict [(.strLit "train", .name "s3_input_train"),
             (.strLit "validation", .name "s3_input_validation")]]
     [("include_cls_metadata", .boolLit false)])]

/-- The status-test `if` of the polling cells: the reminder is printed
when the described status differs from `Completed`. -/
def pollReminderIf : PyStmt :=
  .ifStmt (.binop "!=" (.name "status") (.strLit "Completed"))
    [.exprStmt (.call (.name "print") [.strLit reminderLine] [])] []

/-- The body shared by the two status-polling cells (21 and 38), as a
function of the tuner variable whose job is polled. -/
def pollCellStmts (tunerVar : String) : List PyStmt :=
  [.assign "sage_client" (.call
     (.attr (.call (.attr (.name "boto3") "Session") [] []) "client") [.strLit "sagemaker"] []),
   .assign "job_name" (.attr (.name tunerVar) "_current_job_name"),
   .assign "tuning_job_result" (.call
     (.attr (.name "sage_client") "describe_hyper_parameter_tuning_job") []
     [("HyperParameterTuningJobName", .name "job_name")]),
   .assign "status" (.subscript (.name "tuning_job_result")
     (.strLit "HyperParameterTuningJobStatus")),
   .exprStmt (.call (.name "print")
     [.call (.attr (.strLit "Current status: \x7b\x7d") "format") [.name "status"] []] []),
   pollReminderIf,
   .assign "job_count" (.subscript
     (.subscript (.name "tuning_job_result") (.strLit "TrainingJobStatusCounters"))
     (.strLit "Completed")),
   .exprStmt (.call (.name "print")
     [.call (.attr (.strLit "\x7b\x7d training jobs have completed") "format")
        [.name "job_count"] []] [])]

/-- Code cell 21: poll the first tuning job. -/
def cell_21 : List PyStmt := pollCellStmts "tuner"

/-- Code cell 23: read the first job's metrics table. -/
def cell_23 : List PyStmt :=
  [.assign "tuning_job_name" (.attr (.name "tuner") "_current_job_name"),
   .assign "tuner_parent_metrics" (.call
     (.attr (.name "sagemaker") "HyperparameterTuningJobAnalytics")
     [.name "tuning_job_name"] []),
   .ifStmt (.unaryOp "not"
       (.attr (.call (.attr (.name "tuner_parent_metrics") "dataframe") [] []) "empty"))
     [.assign "df_parent" (.call
        (.attr (.call (.attr (.name "tuner_parent_metrics") "dataframe") [] []) "sort_values")
        [.listLit [.strLit "FinalObjectiveValue"]] [("ascending", .boolLit false)])] [],
   .exprStmt (.name "df_parent")]

/-- Code cell 25: plot the first job's objective values. -/
def cell_25 : List PyStmt :=
  [.importMod "bokeh" none,
   .importMod "bokeh.io" none,
   .exprStmt (.call (.attr (.attr (.name "bokeh") "io") "output_notebook") [] []),
   .importFrom "bokeh.plotting" ["figure", "show"],
   .importFrom "bokeh.models" ["HoverTool"],
   .importMod "pandas" (some "pd"),
   .assign "df_parent_objective_value" (.subscript (.name "df_parent")
     (.binop ">" (.subscript (.name "df_parent") (.strLit "FinalObjectiveValue"))
       (.unaryOp "-" (.call (.name "float") [.strLit "inf"] [])))),
   .assign "p" (.call (.name "figure") []
     [("plot_width", .intLit 900), ("plot_height", .intLit 400),
      ("x_axis_type", .strLit "datetime"), ("x_axis_label", .strLit "datetime"),
      ("y_axis_label", .name "objective_metric_name")]),
   .exprStmt (.call (.attr (.name "p") "circle") []
     [("source", .name "df_parent_objective_value"), ("x", .strLit "TrainingStartTime"),
      ("y", .strLit "FinalObjectiveValue"), ("color", .strLit "black")]),
   .exprStmt (.call (.name "show") [.name "p"] [])]

/-- Code cell 28: drop the economic columns and `duration`. -/
def cell_28 : List PyStmt :=
  [.assign "clean_data" (.call (.attr (.name "data") "drop")
     [.listLit [.strLit "duration", .strLit "emp.var.rate", .strLit "cons.price.idx",
                .strLit "cons.conf.idx", .strLit "euribor3m", .strLit "nr.employed"]]
     [("axis", .intLit 1)])]

/-- Code cell 30: re-encode, split and export the cleaned data. -/
def cell_30 : List PyStmt :=
  [.assign "clean_model_data" (.call (.attr (.name "pd") "get_dummies") [.name "clean_data"] []),
   .assign "clean_model_data" (.call (.attr (.name "pd") "concat")
     [.listLit
       [.subscript (.name "clean_model_data") (.strLit "y_yes"),
        .call (.attr (.name "clean_model_data") "drop")
          [.listLit [.strLit "y_no", .strLit "y_yes"]] [("axis", .intLit 1)]]]
     [("axis", .intLit 1)]),
   .assign "clean_train_data" (.call (.attr (.name "clean_model_data") "sample") []
     [("frac", .numLit (7 / 10)), ("random_state", .intLit 1729)]),
   .assign "clean_validation_data" (.call (.attr (.name "clean_model_data") "drop")
     [.attr (.name "clean_train_data") "index"] []),
   .exprStmt (.call (.attr (.name "clean_train_data") "to_csv") [.strLit "train.csv"]
     [("index", .boolLit false), ("header", .boolLit false)]),
   .exprStmt (.call (.attr (.name "clean_validation_data") "to_csv") [.strLit "validation.csv"]
     [("index", .boolLit false), ("header", .boolLit false)])]

/-- Code cell 31: upload the cleaned CSVs. -/
def cell_31 : List PyStmt :=
  [.assign "s3train_clean" (.call (.attr (.strLit "s3://\x7b\x7d/\x7b\x7d/train_2/") "format")
     [.name "bucket", .name "prefix"] []),
   .assign "s3validation_clean" (.call
     (.attr (.strLit "s3://\x7b\x7d/\x7b\x7d/validation_2/") "format")
     [.name "bucket", .name "prefix"] []),
   .shellCmd "aws s3 cp train.csv $s3train_clean",
   .shellCmd "aws s3 cp validation.csv $s3validation_clean"]

/-- Code cell 32: channel definitions for the second job. -/
def cell_32 : List PyStmt :=
  [.assign "s3_output_location" (.call (.attr (.strLit "s3://\x7b\x7d/\x7b\x7d/output_2") "format")
     [.name "bucket", .name "prefix"] []),
   .assign "s3_input_train" (.call (.attr (.attr (.name "sagemaker") "session") "s3_input")
     [.name "s3train_clean"]
     [("distribution", .strLit "FullyReplicated"), ("content_type", .strLit "text/csv"),
      ("s3_data_type", .strLit "S3Prefix")]),
   .assign "s3_input_validation" (.call (.attr (.attr (.name "sagemaker") "session") "s3_input")
     [.name "s3validation_clean"]
     [("distribution", .strLit "FullyReplicated"), ("content_type", .strLit "text/csv"),
      ("s3_data_type", .strLit "S3Prefix")])]

/-- Code cell 34: the warm-start configuration. -/
def cell_34 : List PyStmt :=
  [.importFrom "sagemaker.tuner" ["WarmStartConfig", "WarmStartTypes"],
   .assign "parent_tuning_job_name" (.name "tuning_job_name"),
   .assign "warm_start_config" (.call (.name "WarmStartConfig")
     [.attr (.name "WarmStartTypes") "TRANSFER_LEARNING"]
     [("parents", .setLit [.name "parent_tuning_job_name"])]),
   .exprStmt (.name "parent_tuning_job_name")]

/-- Code cell 35: the warm-started tuner. -/
def cell_35 : List PyStmt :=
  [.assign "tuner_warm_start" (.call (.name "HyperparameterTuner")
     [.name "xgb", .name "objective_metric_name", .name "hyperparameter_ranges"]
     [("objective_type", .strLit "Maximize"), ("max_jobs", .intLit 20),
      ("max_parallel_jobs", .intLit 2), ("base_tuning_job_name", .strLit "warmstart"),
      ("warm_start_config", .name "warm_start_config")])]

/-- Code cell 37: launch the warm-started tuning job. -/
def cell_37 : List PyStmt :=
  [.exprStmt (.call (.attr (.name "tuner_warm_start") "fit")
     [.dict [(.strLit "train", .name "s3_input_train"),
             (.strLit "validation", .name "s3_input_validation")]]
     [("include_cls_metadata", .boolLit false)])]

/-- Code cell 38: poll the warm-started tuning job. -/
def cell_38 : List PyStmt := pollCellStmts "tuner_warm_start"

/-- Code cell 40: read the warm-started job's metrics table. -/
def cell_40 : List PyStmt :=
  [.assign "warmstart_tuning_job_name" (.attr (.name "tuner_warm_start") "_current_job_name"),
   .assign "tuner_warm_start_metrics" (.call
     (.attr (.name "sagemaker") "HyperparameterTuningJobAnalytics")
     [.name "warmstart_tuning_job_name"] []),
   .ifStmt (.unaryOp "not"
       (.attr (.call (.attr (.name "tuner_warm_start_metrics") "dataframe") [] []) "empty"))
     [.assign "df_warm_start" (.call
        (.attr (.call (.attr (.name "tuner_warm_start_metrics") "dataframe") [] []) "sort_values")
        [.listLit [.strLit "FinalObjectiveValue"]] [("ascending", .boolLit false)])] [],
   .exprStmt (.name "df_warm_start")]

/-- Code cell 42: plot both jobs' objective values. -/
def cell_42 : List PyStmt :=
  [.importMod "bokeh" none,
   .importMod "bokeh.io" none,
   .exprStmt (.call (.attr (.attr (.name "bokeh") "io") "output_notebook") [] []),
   .importFrom "bokeh.plotting" ["figure", "show"],
   .importFrom "bokeh.models" ["HoverTool"],
   .importMod "pandas" (some "pd"),
   .assign "df_parent_objective_value" (.subscript (.name "df_parent")
     (.binop ">" (.subscript (.name "df_parent") (.strLit "FinalObjectiveValue"))
       (.unaryOp "-" (.call (.name "float") [.strLit "inf"] [])))),
   .assign "df_warm_start_objective_value" (.subscript (.name "df_warm_start")
     (.binop ">" (.subscript (.name "df_warm_start") (.strLit "FinalObjectiveValue"))
       (.unaryOp "-" (.call (.name "float") [.strLit "inf"] [])))),
   .assign "p" (.call (.name "figure") []
     [("plot_width", .intLit 900), ("plot_height", .intLit 400),
      ("x_axis_type", .strLit "datetime"), ("x_axis_label", .strLit "datetime"),
      ("y_axis_label", .name "objective_metric_name")]),
   .exprStmt (.call (.attr (.name "p") "circle") []
     [("source", .name "df_parent_objective_value"), ("x", .strLit "TrainingStartTime"),
      ("y", .strLit "FinalObjectiveValue"), ("color", .strLit "black")]),
   .exprStmt (.call (.attr (.name "p") "circle") []
     [("source", .name "df_warm_start_objective_value"), ("x", .strLit "TrainingStartTime"),
      ("y", .strLit "FinalObjectiveValue"), ("color", .strLit "red")]),
   .exprStmt (.call (.name "show") [.name "p"] [])]

/-- Code cell 45: fetch the best training job. -/
def cell_45 : List PyStmt :=
  [.assign "best_overall_training_job" (.subscript
     (.call (.attr (.name "sage_client") "describe_hyper_parameter_tuning_job") []
       [("HyperParameterTuningJobName", .name "warmstart_tuning_job_name")])
     (.strLit "BestTrainingJob")),
   .exprStmt (.name "best_overall_training_job")]

/-- Every code cell of the notebook, in order. -/
def notebookCells : List (List PyStmt) :=
  [cell_1, cell_4, cell_5, cell_8, cell_10, cell_12, cell_13, cell_15, cell_17,
   cell_19, cell_21, cell_23, cell_25, cell_28, cell_30, cell_31, cell_32,
   cell_34, cell_35, cell_37, cell_38, cell_40, cell_42, cell_45]

/-- The notebook's statements, flattened in execution order. -/
def notebookStmts : List PyStmt := notebookCells.flatten

mutual
/-- No loop anywhere in a statement: the notebook never busy-waits; the
only waiting is the human re-running the polling cells. -/
def stmtLoopFree : PyStmt → Bool
  | .whileStmt _ _ => false
  | .forStmt _ _ _ => false
  | .ifStmt _ t e => stmtsLoopFree t && stmtsLoopFree e
  | .tryStmt b h o f =>
      stmtsLoopFree b && stmtsLoopFree h && stmtsLoopFree o && stmtsLoopFree f
  | .withStmt _ b => stmtsLoopFree b
  | .funcDef _ _ b => stmtsLoopFree b
  | .classDef _ b => stmtsLoopFree b
  | _ => true

def stmtsLoopFree : List PyStmt → Bool
  | [] => true
  | s :: ss => stmtLoopFree s && stmtsLoopFree ss
end

/-! ### Concrete frames used to instantiate the theorems -/

/-- A small concrete marketing-style frame with the six droppable columns,
a numeric feature and the binary label. -/
def sampleBankFrame : DataFrame :=
  { index := [0, 1, 2],
    cols :=
      [("age", [.num 30, .num 35, .num 40]),
       ("duration", [.num 100, .num 200, .num 300]),
       ("emp.var.rate", [.num 1, .num 1, .num 1]),
       ("cons.price.idx", [.num 93, .num 93, .num 94]),
       ("cons.conf.idx", [.num 36, .num 40, .num 42]),
       ("euribor3m", [.num 4, .num 4, .num 4]),
       ("nr.employed", [.num 5191, .num 5191, .num 5191]),
       ("y", [.str "yes", .str "no", .str "yes"])] }

/-- The frame `sampleBankFrame` after dropping the six columns. -/
def sampleBankFrameClean : DataFrame :=
  { index := [0, 1, 2],
    cols :=
      [("age", [.num 30, .num 35, .num 40]),
       ("y", [.str "yes", .str "no", .str "yes"])] }

/-- The frame `sampleBankFrame` after one-hot encoding and the reorder: `y_yes`
first, `y_no` dropped. -/
def sampleBankEncoded : DataFrame :=
  { index := [0, 1, 2],
    cols :=
      [("y_yes", [.num 1, .num 0, .num 1]),
       ("age", [.num 30, .num 35, .num 40]),
       ("duration", [.num 100, .num 200, .num 300]),
       ("emp.var.rate", [.num 1, .num 1, .num 1]),
       ("cons.price.idx", [.num 93, .num 93, .num 94]),
       ("cons.conf.idx", [.num 36, .num 40, .num 42]),
       ("euribor3m", [.num 4, .num 4, .num 4]),
       ("nr.employed", [.num 5191, .num 5191, .num 5191])] }

/-- A concrete stand-in for the seeded Mersenne-Twister permutation
source: for each `n`, the identity permutation of `range n`. -/
def rangePerm : Nat → Nat → List Nat := fun _ n => List.range n

/-- A concrete stand-in for the ambient global permutation source. -/
def emptyPerm : Nat → List Nat := fun _ => []

/-! ### The claimed properties, as predicates -/

/-- What one-hot encoding is claimed to do to the binary label column
`y`: exactly the two indicator columns `y_no` and `y_yes` (in the sorted
order `pd.get_dummies` emits), both 0/1-valued, mutually exclusive, and
`y_yes` holding 1 exactly on the rows whose `y` was `yes`. -/
def OneHotBinaryLabelSpec (data : DataFrame) (ys : List Value) : Prop :=
  dummiesOfCol ("y", ys) =
      [("y_no", indicatorCol "no" ys), ("y_yes", indicatorCol "yes" ys)] ∧
  ("y_no", indicatorCol "no" ys) ∈ (model_data_raw data).cols ∧
  ("y_yes", indicatorCol "yes" ys) ∈ (model_data_raw data).cols ∧
  ∀ i < ys.length,
    ((indicatorCol "yes" ys).getD i (.num 0) = .num 0 ∨
      (indicatorCol "yes" ys).getD i (.num 0) = .num 1) ∧
    ((indicatorCol "no" ys).getD i (.num 0) = .num 0 ∨
      (indicatorCol "no" ys).getD i (.num 0) = .num 1) ∧
    (((indicatorCol "yes" ys).getD i (.num 0) = .num 1 ∧
        (indicatorCol "no" ys).getD i (.num 0) = .num 0) ∨
      ((indicatorCol "yes" ys).getD i (.num 0) = .num 0 ∧
        (indicatorCol "no" ys).getD i (.num 0) = .num 1)) ∧
    ((indicatorCol "yes" ys).getD i (.num 0) = .num 1 ↔ ys.getD i (.num 0) = .str "yes")

/-- What `to_csv(index=False, header=False)` of one split is claimed to
produce: one line per row (no header line), each line exactly the row's
values (no index cell), every written value numeric. -/
def NoHeaderNoIndexNumeric (df : DataFrame) : Prop :=
  (toCsv df false false).length = df.nRows ∧
  ∀ line ∈ toCsv df false false,
    line.length = df.cols.length ∧
    ∀ e ∈ line, ∃ v, e = CsvEntry.valueCell v ∧ v.isNum = true

/-- What the exported `train.csv`/`validation.csv` of an encoded frame
are claimed to look like: `y_yes` is the first column of both splits and
both files are headerless, indexless and all-numeric. -/
def CsvExportSpec (md : DataFrame) : Prop :=
  ∀ prng gp,
    (train_data prng gp md).colNames.head? = some "y_yes" ∧
    (validation_data prng gp md).colNames.head? = some "y_yes" ∧
    NoHeaderNoIndexNumeric (train_data prng gp md) ∧
    NoHeaderNoIndexNumeric (validation_data prng gp md)

/-- What the 70/30 split is claimed to satisfy: the training split has
`int(round(0.7 * n))` rows — a nearest integer to 70% of `n` — and the
two splits partition the frame's rows (identified by their index labels):
sizes sum to `n`, labels of each side come from the frame, the sides are
disjoint, and every label lands in one of them. -/
def SplitPartitionSpec (md t v : DataFrame) : Prop :=
  t.nRows = sampleSize md.nRows ∧
  t.nRows + v.nRows = md.nRows ∧
  (∀ l ∈ t.index, l ∈ md.index) ∧
  (∀ l ∈ v.index, l ∈ md.index) ∧
  (∀ l ∈ t.index, l ∉ v.index) ∧
  (∀ l ∈ md.index, l ∈ t.index ∨ l ∈ v.index) ∧
  ((10 * t.nRows : ℤ) - 7 * md.nRows).natAbs ≤ 5

/-- What the data-cleaning drop is claimed to do: `data` itself is
unchanged, the result keeps the index and every column other than the six
dropped ones — values intact, order preserved — and contains none of the
six. -/
def DropSixColsSpec (data cd dAfter : DataFrame) : Prop :=
  dAfter = data ∧
  cd.index = data.index ∧
  cd.cols.Sublist data.cols ∧
  (∀ c ∈ data.cols, c.1 ∉ droppedEconCols → c ∈ cd.cols) ∧
  (∀ c ∈ cd.cols, c ∈ data.cols ∧ c.1 ∉ droppedEconCols) ∧
  (∀ nm ∈ droppedEconCols, nm ∉ cd.colNames)

/-! ## Theorems -/

/-- Two strings whose final characters differ are different. -/
theorem string_ne_of_getLast_ne (a b : String)
    (h : a.data.getLast? ≠ b.data.getLast?) : a ≠ b :=
  fun e => h (by rw [e])

/-- The completed-jobs line of a polling cell never coincides with the
reminder line, whatever the counter prints as. -/
theorem reminder_ne_count_line (jc : Nat) :
    reminderLine ≠ toString jc ++ " training jobs have completed" := by
  apply string_ne_of_getLast_ne
  rw [String.data_append,
    List.getLast?_append_of_ne_nil _
      (by decide : (" training jobs have completed".data ≠ []))]
  decide

/-- C3: the second tuning job is warm-started from the first: the
`WarmStartConfig` passed to `tuner_warm_start` has as parents exactly the
one-element set holding the first job's name — within the limit of five
parents — and its mode is `TRANSFER_LEARNING`. -/
theorem warm_start_from_first_job
    (container role outputPath tuning_job_name : String) :
    (warm_start_config tuning_job_name).parents = [tuning_job_name] ∧
    (warm_start_config tuning_job_name).parents.length = 1 ∧
    (warm_start_config tuning_job_name).parents.length ≤ maxWarmStartParents ∧
    (warm_start_config tuning_job_name).warm_start_type =
      WarmStartTypes.TRANSFER_LEARNING ∧
    (tuner_warm_start container role outputPath tuning_job_name).warm_start_config =
      some (warm_start_config tuning_job_name) := by
  refine ⟨rfl, rfl, ?_, rfl, rfl⟩
  simp [warm_start_config, maxWarmStartParents]

/-- C4: the first tuning job's search space has continuous ranges
`eta ∈ [0,1]`, `alpha ∈ [0,2]`, `min_child_weight ∈ [1,10]` and the
integer range `max_depth ∈ [1,10]` and nothing else; the first tuner
carries a budget of 5 jobs with parallelism 3 over that space for the
`xgb` estimator; and `tuner.fit` is invoked on the `train` and
`validation` channels. -/
theorem first_tuner_search_space_and_fit
    (container role outputPath s3train s3validation : String) :
    hyperparameter_ranges.lookup "eta" = some (.continuous 0 1) ∧
    hyperparameter_ranges.lookup "alpha" = some (.continuous 0 2) ∧
    hyperparameter_ranges.lookup "min_child_weight" = some (.continuous 1 10) ∧
    hyperparameter_ranges.lookup "max_depth" = some (.integer 1 10) ∧
    hyperparameter_ranges.map Prod.fst = ["eta", "alpha", "min_child_weight", "max_depth"] ∧
    (tuner container role outputPath).hyperparameter_ranges = hyperparameter_ranges ∧
    (tuner container role outputPath).estimator = xgb container role outputPath ∧
    (tuner container role outputPath).max_jobs = 5 ∧
    (tuner container role outputPath).max_parallel_jobs = 3 ∧
    (tuner_fit_call s3train s3validation).channels =
      [("train", s3_input_train s3train), ("validation", s3_input_validation s3validation)] :=
  ⟨rfl, rfl, rfl, rfl, rfl, rfl, rfl, rfl, rfl, rfl⟩

/-- C6: both tuners share the objective metric `validation:auc` — the
warm-start tuner reuses `objective_metric_name` unchanged — and both
optimize in the `Maximize` direction. -/
theorem objective_metric_shared_and_maximized
    (container role outputPath tuning_job_name : String) :
    objective_metric_name = "validation:auc" ∧
    (tuner container role outputPath).objective_metric_name = objective_metric_name ∧
    (tuner_warm_start container role outputPath tuning_job_name).objective_metric_name =
      (tuner container role outputPath).objective_metric_name ∧
    (tuner container role outputPath).objective_type = "Maximize" ∧
    (tuner_warm_start container role outputPath tuning_job_name).objective_type =
      "Maximize" :=
  ⟨rfl, rfl, rfl, rfl, rfl⟩

/-- C9: the split is deterministic: because `sample` is called with the
fixed seed `random_state=1729`, its output does not depend on the ambient
global generator, so two runs (which differ only in that ambient state)
select the same rows and produce identical train and validation sets and
identical CSV files. -/
theorem seeded_split_deterministic (prng : Nat → Nat → List Nat)
    (g1 g2 : Nat → List Nat) (md : DataFrame) :
    pandasSample prng g1 md (some 1729) = pandasSample prng g2 md (some 1729) ∧
    train_data prng g1 md = train_data prng g2 md ∧
    validation_data prng g1 md = validation_data prng g2 md ∧
    train_csv prng g1 md = train_csv prng g2 md ∧
    validation_csv prng g1 md = validation_csv prng g2 md :=
  ⟨rfl, rfl, rfl, rfl, rfl⟩

/-- C5: the notebook catches no exception anywhere (no `try` in any code
cell), and the only failure reporting is the polling cells' printed
status: both polling cells contain the status test, and the reminder line
is printed if and only if the described status is not `Completed`. -/
theorem no_exception_handling_and_reminder_iff :
    stmtsHaveTry notebookStmts = false ∧
    pollReminderIf ∈ cell_21 ∧
    pollReminderIf ∈ cell_38 ∧
    ∀ status jobCount,
      reminderLine ∈ pollCellOutput status jobCount ↔ status ≠ "Completed" := by
  refine ⟨by decide, ?_, ?_, ?_⟩
  · exact .tail _ (.tail _ (.tail _ (.tail _ (.tail _ (.head _)))))
  · exact .tail _ (.tail _ (.tail _ (.tail _ (.tail _ (.head _)))))
  · intro status jc
    by_cases h : status = "Completed"
    · subst h
      simp only [pollCellOutput, ne_eq, not_true_eq_false, iff_false, reduceIte]
      intro hmem
      rcases List.mem_append.mp hmem with h1 | h2
      · rcases List.mem_append.mp h1 with h3 | h4
        · exact absurd (List.mem_singleton.mp h3) (by decide)
        · simp at h4
      · exact absurd (List.mem_singleton.mp h2) (reminder_ne_count_line jc)
    · simp only [pollCellOutput, ne_eq, h, not_false_eq_true, iff_true, if_pos]
      exact List.mem_append.mpr (.inl (List.mem_append.mpr (.inr (List.mem_singleton.mpr rfl))))

/-- Round-to-nearest-even lands within half a unit:
`|roundHalfEvenShift m s * 2^s - m| ≤ 2^s / 2`. -/
theorem rhe_err (m s : Nat) :
    2 * ((roundHalfEvenShift m s : ℤ) * 2 ^ s - m).natAbs ≤ 2 ^ s := by
  have hP : 0 < 2 ^ s := pow_pos (by norm_num) s
  have hdm := Nat.div_add_mod m (2 ^ s)
  have hml : m % 2 ^ s < 2 ^ s := Nat.mod_lt m hP
  have hcast : ((2 : ℤ)) ^ s = ((2 ^ s : ℕ) : ℤ) := (Nat.cast_pow 2 s).symm
  have h := congrArg (Nat.cast : ℕ → ℤ) hdm
  rw [Nat.cast_add, Nat.cast_mul] at h
  have key1 : ((m / 2 ^ s : ℕ) : ℤ) * 2 ^ s - (m : ℤ) = -((m % 2 ^ s : ℕ) : ℤ) := by
    rw [hcast]
    linarith [h]
  have key2 : ((m / 2 ^ s + 1 : ℕ) : ℤ) * 2 ^ s - (m : ℤ) =
      ((2 ^ s : ℕ) : ℤ) - ((m % 2 ^ s : ℕ) : ℤ) := by
    rw [hcast, Nat.cast_add, Nat.cast_one]
    linarith [h]
  unfold roundHalfEvenShift
  split_ifs with h1 h2 h3
  · rw [key1]
    omega
  · rw [key2]
    omega
  · rw [key1]
    omega
  · rw [key2]
    omega

/-- The fuel-based log2 lower bracket: `2 ^ natLog2 n ≤ n` for `n ≥ 1`
(stated over the fuel). -/
theorem log2F_le (f : Nat) : ∀ n, n ≤ f → 1 ≤ n → 2 ^ log2F f n ≤ n := by
  induction f with
  | zero => intro n hf h1; omega
  | succ f ih =>
    intro n hf h1
    unfold log2F
    by_cases hsmall : n ≤ 1
    · rw [if_pos hsmall]
      simpa using h1
    · rw [if_neg hsmall]
      have h2 : 2 ≤ n := by omega
      have := ih (n / 2) (by omega) (by omega)
      rw [pow_succ]
      omega

/-- The bracket `2 ^ natLog2 n ≤ n` holds for `n ≥ 1`. -/
theorem natLog2_le (n : Nat) (h : 1 ≤ n) : 2 ^ natLog2 n ≤ n :=
  log2F_le n n le_rfl h

/-- The float product is within half an ulp — at most `2^39` — of the
exact product `mant07 * n`, for every `n ≤ 2^40`. -/
theorem flNum_err (n : Nat) (hn : n ≤ 2 ^ 40) :
    2 * ((flNum n : ℤ) - mant07 * n).natAbs ≤ 2 ^ 40 := by
  unfold flNum
  by_cases hsmall : mant07 * n < 2 ^ 53
  · rw [if_pos hsmall]
    simp
  · rw [if_neg hsmall]
    have hge : 2 ^ 53 ≤ mant07 * n := by omega
    have hlt : mant07 * n < 2 ^ 93 := by
      calc mant07 * n ≤ mant07 * 2 ^ 40 := Nat.mul_le_mul_left _ hn
        _ < 2 ^ 93 := by norm_num [mant07]
    have hlog : natLog2 (mant07 * n) ≤ 92 := by
      by_contra hcon
      have h93 : 93 ≤ natLog2 (mant07 * n) := by omega
      have hle := natLog2_le (mant07 * n) (by omega)
      have : 2 ^ 93 ≤ mant07 * n := le_trans (Nat.pow_le_pow_right (by norm_num) h93) hle
      omega
    have hs : natLog2 (mant07 * n) - 52 ≤ 40 := by omega
    have herr := rhe_err (mant07 * n) (natLog2 (mant07 * n) - 52)
    have hpow : (2 : ℕ) ^ (natLog2 (mant07 * n) - 52) ≤ 2 ^ 40 :=
      Nat.pow_le_pow_right (by norm_num) hs
    calc 2 * ((↑(roundHalfEvenShift (mant07 * n) (natLog2 (mant07 * n) - 52) *
            2 ^ (natLog2 (mant07 * n) - 52)) : ℤ) - ↑(mant07 * n)).natAbs
        = 2 * ((↑(roundHalfEvenShift (mant07 * n) (natLog2 (mant07 * n) - 52)) *
            (2 : ℤ) ^ (natLog2 (mant07 * n) - 52) - ↑(mant07 * n)).natAbs) := by
          push_cast
          ring_nf
      _ ≤ 2 ^ (natLog2 (mant07 * n) - 52) := herr
      _ ≤ 2 ^ 40 := hpow

/-- C8's size fact in integer form: the sampled row count is a nearest
integer to 70% of `n` — `|10 * sampleSize n - 7 * n| ≤ 5` — for every
`n ≤ 2^40`. -/
theorem sampleSize_near (n : Nat) (hn : n ≤ 2 ^ 40) :
    ((10 * sampleSize n : ℤ) - 7 * n).natAbs ≤ 5 := by
  have hfl := flNum_err n hn
  have hk := rhe_err (flNum n) 53
  unfold sampleSize
  have e53 : (2 : ℕ) ^ 53 = 9007199254740992 := by norm_num
  have e53i : (2 : ℤ) ^ 53 = 9007199254740992 := by norm_num
  have e40 : (2 : ℕ) ^ 40 = 1099511627776 := by norm_num
  rw [e40] at hfl
  rw [e53i] at hk
  rw [e53] at hk
  rw [e40] at hn
  unfold mant07 at hfl
  omega
/-- The sampled row count never exceeds the row count. -/
theorem sampleSize_le (n : Nat) (hn : n ≤ 2 ^ 40) : sampleSize n ≤ n := by
  by_cases h1 : n ≤ 1
  · rcases Nat.le_one_iff_eq_zero_or_eq_one.mp h1 with h | h <;> subst h <;> decide
  · have h := sampleSize_near n hn
    omega

theorem getD_mem_or (l : List Value) (i : Nat) (d : Value) :
    l.getD i d ∈ l ∨ l.getD i d = d := by
  rcases Nat.lt_or_ge i l.length with h | h
  · rw [List.getD_eq_getElem l d h]
    exact Or.inl (List.getElem_mem h)
  · exact Or.inr (List.getD_eq_default l d h)

/-- C10: the cleaning step removes exactly the six forecast-dependent
columns and nothing else: `clean_data` keeps the index and every other
column with its values, in order, contains none of the six, and the
original `data` is left unmodified (the drop is not in-place). -/
theorem drop_six_columns (data cd dAfter : DataFrame)
    (h : clean_data data = some (cd, dAfter)) :
    DropSixColsSpec data cd dAfter := by
  unfold clean_data pandasDropCols at h
  by_cases hc : droppedEconCols.all (fun n => data.colNames.contains n) = true
  · rw [if_pos hc, Option.some_inj, Prod.mk.injEq] at h
    obtain ⟨hcd, hAfter⟩ := h
    subst hcd
    refine ⟨hAfter.symm, rfl, List.filter_sublist data.cols, ?_, ?_, ?_⟩
    · intro c hcmem hnot
      simp only [List.mem_filter]
      refine ⟨hcmem, ?_⟩
      simpa using hnot
    · intro c hcmem
      simp only [List.mem_filter] at hcmem
      refine ⟨hcmem.1, ?_⟩
      have := hcmem.2
      simpa using this
    · intro nm hnm hmem
      simp only [DataFrame.colNames, List.mem_map] at hmem
      obtain ⟨c, hcmem, hfst⟩ := hmem
      simp only [List.mem_filter] at hcmem
      have := hcmem.2
      rw [hfst] at this
      simp at this
      exact this hnm
  · rw [if_neg hc] at h
    exact absurd h (by simp)

/-- C10 witness: the drop theorem applied to the concrete frame. -/
theorem drop_six_columns_witness :
    clean_data sampleBankFrame = some (sampleBankFrameClean, sampleBankFrame) ∧
    DropSixColsSpec sampleBankFrame sampleBankFrameClean sampleBankFrame :=
  ⟨by decide, drop_six_columns sampleBankFrame sampleBankFrameClean sampleBankFrame (by decide)⟩

/-- A duplicate-free list of strings drawn from `{yes, no}` and containing
both is one of the two orderings. -/
theorem two_elt_yes_no (l : List String) (hnd : l.Nodup)
    (hsub : ∀ x ∈ l, x = "yes" ∨ x = "no")
    (hy : "yes" ∈ l) (hn : "no" ∈ l) :
    l = ["yes", "no"] ∨ l = ["no", "yes"] := by
  match l with
  | [] => simp at hy
  | [a] =>
    rw [List.mem_singleton] at hy hn
    rw [← hy] at hn
    exact absurd hn (by decide)
  | [a, b] =>
    rcases hsub a (by simp) with ha | ha <;> rcases hsub b (by simp) with hb | hb <;>
      subst ha <;> subst hb <;> simp_all
  | a :: b :: c :: t =>
    exfalso
    simp only [List.nodup_cons, List.mem_cons] at hnd
    rcases hsub a (by simp) with ha | ha <;> rcases hsub b (by simp) with hb | hb <;>
      rcases hsub c (by simp) with hc | hc <;> subst ha <;> subst hb <;> subst hc <;>
      simp_all

/-- C1: one-hot encoding turns a binary label column `y` (string values
`yes`/`no`, with both present) into exactly the two indicator columns
`y_no` and `y_yes`, both of which land in the encoded frame; on every
row each indicator is 0 or 1, exactly one of the two is 1, and `y_yes`
is 1 exactly when the row's `y` was `yes`. -/
theorem one_hot_binary_label (data : DataFrame) (ys : List Value)
    (hy : data.getCol "y" = some ys)
    (hbin : ∀ v ∈ ys, v = .str "yes" ∨ v = .str "no")
    (hyes : Value.str "yes" ∈ ys) (hno : Value.str "no" ∈ ys) :
    OneHotBinaryLabelSpec data ys := by
  have hnotall : ys.all Value.isNum = false := by
    rw [Bool.eq_false_iff]
    intro hall
    have := List.all_eq_true.mp hall _ hyes
    simp [Value.isNum] at this
  have hstr : ∀ s ∈ (ys.filterMap (fun v => match v with
      | .str s => some s | .num _ => none)).dedup, s = "yes" ∨ s = "no" := by
    intro s hs
    rw [List.mem_dedup, List.mem_filterMap] at hs
    obtain ⟨v, hv, he⟩ := hs
    rcases hbin v hv with h | h <;> subst h <;>
      simp only [Option.some_inj] at he <;> [left; right] <;> exact he.symm
  have hyes2 : "yes" ∈ (ys.filterMap (fun v => match v with
      | .str s => some s | .num _ => none)).dedup := by
    rw [List.mem_dedup, List.mem_filterMap]
    exact ⟨.str "yes", hyes, rfl⟩
  have hno2 : "no" ∈ (ys.filterMap (fun v => match v with
      | .str s => some s | .num _ => none)).dedup := by
    rw [List.mem_dedup, List.mem_filterMap]
    exact ⟨.str "no", hno, rfl⟩
  have hds : distinctSorted ys = ["no", "yes"] := by
    unfold distinctSorted
    rcases two_elt_yes_no _ (List.nodup_dedup _) hstr hyes2 hno2 with h | h <;>
      rw [h] <;> decide
  have hdum : dummiesOfCol ("y", ys) =
      [("y_no", indicatorCol "no" ys), ("y_yes", indicatorCol "yes" ys)] := by
    unfold dummiesOfCol
    rw [hnotall]
    simp only [Bool.false_eq_true, if_false, hds, List.map_cons, List.map_nil]
    rw [show "y" ++ "_" ++ "no" = "y_no" from by decide,
      show "y" ++ "_" ++ "yes" = "y_yes" from by decide]
  obtain ⟨c, hfind, hc2⟩ := Option.map_eq_some'.mp hy
  have hc1 : c.1 = "y" := by
    have := List.find?_some hfind
    simpa using this
  have hcEq : c = ("y", ys) := Prod.ext hc1 hc2
  have hcMem : ("y", ys) ∈ data.cols := hcEq ▸ List.mem_of_find?_eq_some hfind
  have memNo : ("y_no", indicatorCol "no" ys) ∈ (model_data_raw data).cols :=
    List.mem_flatMap.mpr ⟨("y", ys), hcMem, by rw [hdum]; simp⟩
  have memYes : ("y_yes", indicatorCol "yes" ys) ∈ (model_data_raw data).cols :=
    List.mem_flatMap.mpr ⟨("y", ys), hcMem, by rw [hdum]; simp⟩
  refine ⟨hdum, memNo, memYes, ?_⟩
  intro i hi
  have hgy : ys.getD i (.num 0) = ys[i] := List.getD_eq_getElem ys _ hi
  have hYes : (indicatorCol "yes" ys).getD i (.num 0) =
      (if ys[i] = .str "yes" then Value.num 1 else Value.num 0) := by
    unfold indicatorCol
    rw [List.getD_eq_getElem _ _ (by simpa using hi), List.getElem_map]
  have hNo : (indicatorCol "no" ys).getD i (.num 0) =
      (if ys[i] = .str "no" then Value.num 1 else Value.num 0) := by
    unfold indicatorCol
    rw [List.getD_eq_getElem _ _ (by simpa using hi), List.getElem_map]
  rcases hbin ys[i] (List.getElem_mem hi) with h | h
  · rw [h] at hYes hNo
    simp only [reduceIte] at hYes
    rw [if_neg (by decide)] at hNo
    refine ⟨Or.inr hYes, Or.inl hNo, Or.inl ⟨hYes, hNo⟩, ?_⟩
    rw [hYes, hgy, h]
    simp
  · rw [h] at hYes hNo
    simp only [reduceIte] at hNo
    rw [if_neg (by decide)] at hYes
    refine ⟨Or.inl hYes, Or.inr hNo, Or.inr ⟨hYes, hNo⟩, ?_⟩
    rw [hYes, hgy, h]
    constructor
    · intro hcontra
      exact absurd hcontra (by decide)
    · intro hcontra
      exact absurd hcontra (by decide)

/-- C8: for every encoded frame with duplicate-free row labels, and for
the seeded permutation the sampler draws (a permutation of the row
positions), `train_data = md.sample(frac=0.7, random_state=1729)` and
`validation_data = md.drop(train_data.index)` partition the frame: the
training split has `int(round(0.7 * n))` rows — a nearest integer to 70%
of `n` — the sizes sum to `n`, both sides draw their labels from the
frame, they are disjoint, and every label lands in one of the two. -/
theorem split_partitions_frame (prng : Nat → Nat → List Nat)
    (gp : Nat → List Nat) (md : DataFrame) (hN : md.index.Nodup)
    (hnd : (prng 1729 md.nRows).Nodup)
    (hmem : ∀ i ∈ prng 1729 md.nRows, i < md.nRows)
    (hlen : (prng 1729 md.nRows).length = md.nRows)
    (hn : md.nRows ≤ 2 ^ 40) :
    SplitPartitionSpec md (train_data prng gp md) (validation_data prng gp md) := by
  have hkn : sampleSize md.nRows ≤ md.nRows := sampleSize_le _ hn
  have hidxlen : md.index.length = md.nRows := rfl
  have htidx : (train_data prng gp md).index =
      ((prng 1729 md.nRows).take (sampleSize md.nRows)).map
        (fun i => md.index.getD i 0) := rfl
  have hvidx : (validation_data prng gp md).index =
      ((List.range md.nRows).filter
        (fun i => !((train_data prng gp md).index.contains (md.index.getD i 0)))).map
        (fun i => md.index.getD i 0) := rfl
  have hSnd : ((prng 1729 md.nRows).take (sampleSize md.nRows)).Nodup :=
    hnd.sublist (List.take_sublist _ _)
  have hSsub : ∀ i ∈ (prng 1729 md.nRows).take (sampleSize md.nRows), i < md.nRows :=
    fun i hi => hmem i ((List.take_sublist _ _).subset hi)
  have hSlen : ((prng 1729 md.nRows).take (sampleSize md.nRows)).length =
      sampleSize md.nRows := by
    rw [List.length_take, hlen]
    omega
  have htn : (train_data prng gp md).nRows = sampleSize md.nRows := by
    rw [DataFrame.nRows, htidx, List.length_map, hSlen]
  have hfi : ∀ i, i < md.nRows → ∀ j, j < md.nRows →
      md.index.getD i 0 = md.index.getD j 0 → i = j := by
    intro i hi j hj he
    rw [List.getD_eq_getElem _ _ (hidxlen ▸ hi), List.getD_eq_getElem _ _ (hidxlen ▸ hj)] at he
    exact hN.getElem_inj_iff.mp he
  have hkey : ∀ i, i < md.nRows →
      ((md.index.getD i 0) ∈ (train_data prng gp md).index ↔
        i ∈ (prng 1729 md.nRows).take (sampleSize md.nRows)) := by
    intro i hi
    rw [htidx]
    constructor
    · intro hmm
      obtain ⟨j, hj, he⟩ := List.mem_map.mp hmm
      have := hfi j (hSsub j hj) i hi he
      rwa [this] at hj
    · intro hmm
      exact List.mem_map_of_mem _ hmm
  have hfiltercong :
      ((List.range md.nRows).filter
        (fun i => !((train_data prng gp md).index.contains (md.index.getD i 0)))) =
      ((List.range md.nRows).filter
        (fun i => !(decide (i ∈ (prng 1729 md.nRows).take (sampleSize md.nRows))))) := by
    apply List.filter_congr
    intro i hi
    have hilt : i < md.nRows := List.mem_range.mp hi
    congr 1
    rw [Bool.eq_iff_iff]
    simp only [List.elem_eq_mem, decide_eq_true_eq]
    exact hkey i hilt
  have hcount : ((List.range md.nRows).filter
      (fun i => decide (i ∈ (prng 1729 md.nRows).take (sampleSize md.nRows)))).length =
      sampleSize md.nRows := by
    have hperm : ((List.range md.nRows).filter
        (fun i => decide (i ∈ (prng 1729 md.nRows).take (sampleSize md.nRows)))).Perm
        ((prng 1729 md.nRows).take (sampleSize md.nRows)) := by
      apply (List.perm_ext_iff_of_nodup ((List.nodup_range md.nRows).filter _) hSnd).mpr
      intro a
      simp only [List.mem_filter, List.mem_range, decide_eq_true_eq]
      constructor
      · exact fun h => h.2
      · exact fun h => ⟨hSsub a h, h⟩
    rw [hperm.length_eq, hSlen]
  have hvn : (validation_data prng gp md).nRows = md.nRows - sampleSize md.nRows := by
    rw [DataFrame.nRows, hvidx, List.length_map, hfiltercong]
    have htotal := List.length_eq_length_filter_add
      (fun i => decide (i ∈ (prng 1729 md.nRows).take (sampleSize md.nRows)))
      (l := List.range md.nRows)
    rw [List.length_range, hcount] at htotal
    omega
  refine ⟨htn, ?_, ?_, ?_, ?_, ?_, ?_⟩
  · rw [htn, hvn]
    omega
  · intro l hl
    rw [htidx] at hl
    obtain ⟨i, hi, he⟩ := List.mem_map.mp hl
    rw [← he, List.getD_eq_getElem _ _ (hidxlen ▸ hSsub i hi)]
    exact List.getElem_mem _
  · intro l hl
    rw [hvidx] at hl
    obtain ⟨i, hi, he⟩ := List.mem_map.mp hl
    have hilt : i < md.nRows := List.mem_range.mp (List.mem_filter.mp hi).1
    rw [← he, List.getD_eq_getElem _ _ (hidxlen ▸ hilt)]
    exact List.getElem_mem _
  · intro l hl hlv
    rw [hvidx] at hlv
    obtain ⟨i, hi, he⟩ := List.mem_map.mp hlv
    have hcond := (List.mem_filter.mp hi).2
    rw [← he] at hl
    simp only [Bool.not_eq_true'] at hcond
    rw [← Bool.not_eq_true] at hcond
    exact hcond (by simpa using hl)
  · intro l hl
    obtain ⟨i, hilt, he⟩ := List.getElem_of_mem hl
    have hilt2 : i < md.nRows := hidxlen ▸ hilt
    have hfe : md.index.getD i 0 = l := by
      rw [List.getD_eq_getElem _ _ hilt, he]
    by_cases hc : (md.index.getD i 0) ∈ (train_data prng gp md).index
    · left
      rwa [hfe] at hc
    · right
      rw [hvidx]
      refine List.mem_map.mpr ⟨i, ?_, hfe⟩
      rw [List.mem_filter]
      refine ⟨List.mem_range.mpr hilt2, ?_⟩
      simp only [Bool.not_eq_true']
      rw [← Bool.not_eq_true]
      simpa using hc
  · rw [htn]
    exact sampleSize_near md.nRows hn

/-- C8 witness: the split theorem applied to the concrete encoded frame
with a concrete permutation source. -/
theorem split_partitions_frame_witness :
    (sampleBankEncoded.index.Nodup ∧
      (rangePerm 1729 sampleBankEncoded.nRows).Nodup ∧
      (∀ i ∈ rangePerm 1729 sampleBankEncoded.nRows, i < sampleBankEncoded.nRows) ∧
      (rangePerm 1729 sampleBankEncoded.nRows).length = sampleBankEncoded.nRows ∧
      sampleBankEncoded.nRows ≤ 2 ^ 40) ∧
    SplitPartitionSpec sampleBankEncoded
      (train_data rangePerm emptyPerm sampleBankEncoded)
      (validation_data rangePerm emptyPerm sampleBankEncoded) :=
  ⟨⟨by decide, by decide, by decide, by decide, by decide⟩,
    split_partitions_frame rangePerm emptyPerm sampleBankEncoded
      (by decide) (by decide) (by decide) (by decide) (by decide)⟩

/-- C1 witness: the one-hot theorem applied to the concrete frame, whose
`y` column is `[yes, no, yes]`. -/
theorem one_hot_binary_label_witness :
    (sampleBankFrame.getCol "y" = some [.str "yes", .str "no", .str "yes"] ∧
      (∀ v ∈ ([.str "yes", .str "no", .str "yes"] : List Value),
        v = Value.str "yes" ∨ v = Value.str "no") ∧
      Value.str "yes" ∈ ([.str "yes", .str "no", .str "yes"] : List Value) ∧
      Value.str "no" ∈ ([.str "yes", .str "no", .str "yes"] : List Value)) ∧
    OneHotBinaryLabelSpec sampleBankFrame [.str "yes", .str "no", .str "yes"] :=
  ⟨⟨by decide, by decide, by decide, by decide⟩,
    one_hot_binary_label sampleBankFrame _ (by decide) (by decide) (by decide) (by decide)⟩

/-- Every column `pd.get_dummies` outputs is numeric: kept columns were
all-numeric, and indicator columns hold only 0 and 1. -/
theorem getDummies_numeric (df : DataFrame) :
    ∀ c ∈ (getDummies df).cols, c.2.all Value.isNum = true := by
  intro c hc
  obtain ⟨c0, h0, hin⟩ := List.mem_flatMap.mp hc
  unfold dummiesOfCol at hin
  by_cases hall : c0.2.all Value.isNum = true
  · rw [if_pos hall, List.mem_singleton] at hin
    subst hin
    exact hall
  · rw [if_neg hall] at hin
    obtain ⟨s, _, he⟩ := List.mem_map.mp hin
    subst he
    rw [List.all_eq_true]
    intro v hv
    obtain ⟨w, _, he2⟩ := List.mem_map.mp hv
    subst he2
    by_cases hw : w = Value.str s
    · rw [if_pos hw]; rfl
    · rw [if_neg hw]; rfl

/-- Selecting rows preserves all-numeric columns (the default fill is
numeric, too). -/
theorem selectRows_numeric (df : DataFrame) (pos : List Nat)
    (h : ∀ c ∈ df.cols, c.2.all Value.isNum = true) :
    ∀ c ∈ (selectRows df pos).cols, c.2.all Value.isNum = true := by
  intro c hc
  obtain ⟨c0, h0, he⟩ := List.mem_map.mp hc
  subst he
  rw [List.all_eq_true]
  intro v hv
  obtain ⟨i, _, he2⟩ := List.mem_map.mp hv
  subst he2
  rcases getD_mem_or c0.2 i (.num 0) with hm | hd
  · exact List.all_eq_true.mp (h c0 h0) _ hm
  · rw [hd]; rfl

/-- Selecting rows does not change the column names. -/
theorem selectRows_colNames (df : DataFrame) (pos : List Nat) :
    (selectRows df pos).colNames = df.colNames := by
  simp [selectRows, DataFrame.colNames, List.map_map, Function.comp]

/-- A frame whose columns are all numeric exports, with
`index=False, header=False`, to a headerless, indexless, all-numeric
CSV. -/
theorem toCsv_noheader_noindex (df : DataFrame)
    (h : ∀ c ∈ df.cols, c.2.all Value.isNum = true) :
    NoHeaderNoIndexNumeric df := by
  constructor
  · simp [toCsv, DataFrame.nRows]
  · intro line hline
    simp only [toCsv, Bool.false_eq_true, if_false, List.nil_append, List.mem_map] at hline
    obtain ⟨i, _, he⟩ := hline
    subst he
    constructor
    · simp [DataFrame.rowAt]
    · intro e he2
      obtain ⟨v, hv, he3⟩ := List.mem_map.mp he2
      refine ⟨v, he3.symm, ?_⟩
      obtain ⟨c, hcm, hv2⟩ := List.mem_map.mp hv
      subst hv2
      rcases getD_mem_or c.2 i (.num 0) with hm | hd
      · exact List.all_eq_true.mp (h c hcm) _ hm
      · rw [hd]; rfl

/-- C2: for every input frame whose encoding succeeds, the exported
`train.csv` and `validation.csv` carry the label `y_yes` as the first
column, every column numeric, no header row and no index column; and the
cleaned pipeline is the same pipeline applied to the dropped frame, so
the same holds for its exports. -/
theorem csv_export_format (data md : DataFrame)
    (h : model_data data = some md) :
    CsvExportSpec md ∧
    clean_model_data data = (clean_data data).bind (fun p => model_data p.1) := by
  refine ⟨?_, rfl⟩
  unfold model_data reorderLabelFirst at h
  obtain ⟨ys, hys, h2⟩ := Option.bind_eq_some.mp h
  obtain ⟨q, hq, h3⟩ := Option.map_eq_some'.mp h2
  have hnum0 : ∀ c ∈ (model_data_raw data).cols, c.2.all Value.isNum = true :=
    getDummies_numeric data
  have hysnum : ys.all Value.isNum = true := by
    obtain ⟨c, hfind, hc2⟩ := Option.map_eq_some'.mp hys
    have := hnum0 c (List.mem_of_find?_eq_some hfind)
    rwa [hc2] at this
  have hrest : ∀ c ∈ q.1.cols, c.2.all Value.isNum = true := by
    unfold pandasDropCols at hq
    by_cases hcond : (["y_no", "y_yes"] : List String).all
        (fun n => (model_data_raw data).colNames.contains n) = true
    · rw [if_pos hcond, Option.some_inj] at hq
      intro c hc
      rw [← hq] at hc
      simp only [List.mem_filter] at hc
      exact hnum0 c hc.1
    · rw [if_neg hcond] at hq
      exact absurd hq (by simp)
  have hcols : ∀ c ∈ md.cols, c.2.all Value.isNum = true := by
    rw [← h3]
    intro c hc
    rcases List.mem_cons.mp hc with he | hm
    · subst he
      exact hysnum
    · exact hrest c hm
  have hhead : md.colNames.head? = some "y_yes" := by
    rw [← h3]
    rfl
  intro prng gp
  refine ⟨?_, ?_, ?_, ?_⟩
  · show (selectRows md _).colNames.head? = some "y_yes"
    rw [selectRows_colNames]
    exact hhead
  · show (selectRows md _).colNames.head? = some "y_yes"
    rw [selectRows_colNames]
    exact hhead
  · exact toCsv_noheader_noindex _ (selectRows_numeric md _ hcols)
  · exact toCsv_noheader_noindex _ (selectRows_numeric md _ hcols)

/-- C2 witness: the export theorem applied to the concrete frame and its
encoding. -/
theorem csv_export_format_witness :
    model_data sampleBankFrame = some sampleBankEncoded ∧
    (CsvExportSpec sampleBankEncoded ∧
      clean_model_data sampleBankFrame =
        (clean_data sampleBankFrame).bind (fun p => model_data p.1)) :=
  ⟨by decide, csv_export_format sampleBankFrame sampleBankEncoded (by decide)⟩

/-- C7: the notebook is single-threaded and strictly sequential: no cell
imports a concurrency module, creates a thread, process, lock or any
other local concurrency primitive, every shell escape runs in the
blocking foreground, and there is no loop anywhere (so the only waiting
is the human re-running the polling cells). -/
theorem no_local_concurrency :
    stmtsConcFree notebookStmts = true ∧ stmtsLoopFree notebookStmts = true := by
  exact ⟨by decide, by decide⟩

end AutoTuning
